import Mathlib

/-!
Verification of the `safe_parking_lot` crate: a type-state locking
discipline in which a lock is acquired in write mode, inspected through a
read-only guard, and mutated only after an explicit `upgrade`.

The development shallowly embeds the three source files:
* `src/lib.rs` — the generic protocol layer (`SafeLock`, `SafeGuard`, the
  capability traits `LockBlocking` / `LockImmediate`, the acquire family,
  `upgrade`, `unlock` and the `map_guard` family);
* `src/parking_lot.rs` — the binding to `parking_lot::RwLock` (infallible
  blocking acquire, unit-error immediate acquire, guard projection);
* `src/std.rs` — the binding to `std::sync::RwLock` (poisoning errors).

Rust's `Result` is embedded as `RustResult`.  Effectful calls on the shared
lock primitive are embedded in state-passing style: a capability is a
function from the borrowed handle and the primitive's current state to a
result together with the next state.  The external primitives themselves
(`parking_lot::RwLock`, `std::sync::RwLock` and their guards) are modelled
from their documented behaviour as single-cell state machines; in-place
mutation through a held write guard is modelled by the guard carrying the
value and writing it back when the guard is dropped.
-/

/-- Rust's `Result<T, E>`. -/
inductive RustResult (T : Type) (E : Type) where
  | ok (val : T)
  | err (e : E)
deriving DecidableEq

/-- Rust's `Result::unwrap`, total here because it is only ever called by the
protocol layer at error type `Infallible` (embedded as `Empty`). -/
def RustResult.unwrap {G : Type} : RustResult G Empty → G
  | .ok g => g
  | .err e => e.elim

/-- `SafeLock<L>` from `src/lib.rs`: a wrapper around a lock type `L`
(`pub struct SafeLock<L>(L);`). -/
structure SafeLock (L : Type) where
  inner : L
deriving DecidableEq

/-- `SafeGuard<L, G>` from `src/lib.rs`: holds the lock handle that produced
it together with the real underlying write guard. -/
structure SafeGuard (L : Type) (G : Type) where
  lock : SafeLock L
  guard : G
deriving DecidableEq

/-- The `LockBlocking` trait of `src/lib.rs`.  `lock_blocking` takes `&self`
and acts on the shared primitive, embedded as a state `σ` threaded through
the call. -/
structure LockBlocking (L : Type) (σ : Type) (E : Type) (G : Type) where
  lock_blocking : L → σ → RustResult G E × σ

/-- The `LockImmediate` trait of `src/lib.rs`. -/
structure LockImmediate (L : Type) (σ : Type) (E : Type) (G : Type) where
  lock_immediate : L → σ → RustResult G E × σ

/-- `SafeLock::lock_blocking` (src/lib.rs:69-77): requires
`L: LockBlocking<Error = Infallible>` and unwraps the acquire result. -/
def SafeLock.lock_blocking {L σ G : Type} (s : SafeLock L)
    (cap : LockBlocking L σ Empty G) (w : σ) : SafeGuard L G × σ :=
  let p := cap.lock_blocking s.inner w
  (⟨s, p.1.unwrap⟩, p.2)

/-- `SafeLock::try_lock_blocking` (src/lib.rs:82-90): `Err(_) => Err(self)`. -/
def SafeLock.try_lock_blocking {L σ E G : Type} (s : SafeLock L)
    (cap : LockBlocking L σ E G) (w : σ) :
    RustResult (SafeGuard L G) (SafeLock L) × σ :=
  match cap.lock_blocking s.inner w with
  | (.ok g, w') => (.ok ⟨s, g⟩, w')
  | (.err _, w') => (.err s, w')

/-- `SafeLock::try_lock_blocking_err` (src/lib.rs:95-103):
`Err(err) => Err((self, err))`. -/
def SafeLock.try_lock_blocking_err {L σ E G : Type} (s : SafeLock L)
    (cap : LockBlocking L σ E G) (w : σ) :
    RustResult (SafeGuard L G) (SafeLock L × E) × σ :=
  match cap.lock_blocking s.inner w with
  | (.ok g, w') => (.ok ⟨s, g⟩, w')
  | (.err e, w') => (.err (s, e), w')

/-- `SafeLock::lock_immediate` (src/lib.rs:109-117): requires
`L: LockImmediate<Error = Infallible>` and unwraps the acquire result. -/
def SafeLock.lock_immediate {L σ G : Type} (s : SafeLock L)
    (cap : LockImmediate L σ Empty G) (w : σ) : SafeGuard L G × σ :=
  let p := cap.lock_immediate s.inner w
  (⟨s, p.1.unwrap⟩, p.2)

/-- `SafeLock::try_lock_immediate` (src/lib.rs:122-130). -/
def SafeLock.try_lock_immediate {L σ E G : Type} (s : SafeLock L)
    (cap : LockImmediate L σ E G) (w : σ) :
    RustResult (SafeGuard L G) (SafeLock L) × σ :=
  match cap.lock_immediate s.inner w with
  | (.ok g, w') => (.ok ⟨s, g⟩, w')
  | (.err _, w') => (.err s, w')

/-- `SafeLock::try_lock_immediate_err` (src/lib.rs:133-141). -/
def SafeLock.try_lock_immediate_err {L σ E G : Type} (s : SafeLock L)
    (cap : LockImmediate L σ E G) (w : σ) :
    RustResult (SafeGuard L G) (SafeLock L × E) × σ :=
  match cap.lock_immediate s.inner w with
  | (.ok g, w') => (.ok ⟨s, g⟩, w')
  | (.err e, w') => (.err (s, e), w')

/-- `SafeGuard::upgrade` (src/lib.rs:149-151): `self.guard`. -/
def SafeGuard.upgrade {L G : Type} (g : SafeGuard L G) : G :=
  g.guard

/-- `SafeGuard::unlock` (src/lib.rs:156-158): `self.lock`.  (The contained
primitive guard is dropped by Rust's drop glue; release of the primitive is
modelled at the binding layer, see `plUnlock`.) -/
def SafeGuard.unlock {L G : Type} (g : SafeGuard L G) : SafeLock L :=
  g.lock

/-- `SafeGuard::map_guard` (src/lib.rs:164-172). -/
def SafeGuard.map_guard {L G H : Type} (g : SafeGuard L G) (f : G → H) :
    SafeGuard L H :=
  ⟨g.lock, f g.guard⟩

/-- `SafeGuard::try_map_guard` (src/lib.rs:175-189). -/
def SafeGuard.try_map_guard {L G H : Type} (g : SafeGuard L G)
    (f : G → RustResult H G) :
    RustResult (SafeGuard L H) (SafeGuard L G) :=
  match f g.guard with
  | .ok h => .ok ⟨g.lock, h⟩
  | .err g0 => .err ⟨g.lock, g0⟩

/-- `SafeGuard::try_map_guard_err` (src/lib.rs:192-209). -/
def SafeGuard.try_map_guard_err {L G H E : Type} (g : SafeGuard L G)
    (f : G → RustResult H (G × E)) :
    RustResult (SafeGuard L H) (SafeGuard L G × E) :=
  match f g.guard with
  | .ok h => .ok ⟨g.lock, h⟩
  | .err (g0, e) => .err (⟨g.lock, g0⟩, e)

/-- The `Deref` impl for `SafeGuard` (src/lib.rs:212-224): delegates to the
underlying guard's `Deref` impl, embedded as a read function `d : G → T`. -/
def SafeGuard.deref {L G T : Type} (g : SafeGuard L G) (d : G → T) : T :=
  d g.guard

/-- Model of a borrowed `&RwLock<T>` reference: an opaque token naming the
externally owned lock.  The capability implementations act on the designated
lock's state, which is threaded separately (a single-lock world). -/
structure RwLockRef where
  id : Nat
deriving DecidableEq

/-- Model of the external `parking_lot::RwLock<T>` cell: the protected value
and whether the lock is currently held in a conflicting mode. -/
structure RwLockState (T : Type) where
  value : T
  locked : Bool
deriving DecidableEq

/-- Model of the external `parking_lot::RwLockWriteGuard<'a, T>`: exclusive
access to the protected value.  In-place access through the guard is
modelled by the guard carrying the value; dropping the guard writes it back
and releases the lock. -/
structure RwLockWriteGuard (T : Type) where
  value : T
deriving DecidableEq

/-- Model of the external `parking_lot::MappedRwLockWriteGuard<'a, U>`
(projected from a write guard over `T`): the base value it still holds
exclusively, and the projected view. -/
structure MappedRwLockWriteGuard (T : Type) (U : Type) where
  base : T
  view : U
deriving DecidableEq

/-- Model of `parking_lot::RwLock::write`: blocks until available, then
acquires; the returned pair is the guard and the cell state after the
acquire completes. -/
def RwLock.write {T : Type} (w : RwLockState T) :
    RwLockWriteGuard T × RwLockState T :=
  (⟨w.value⟩, ⟨w.value, true⟩)

/-- Model of `parking_lot::RwLock::try_write`: `None` when the lock is held
in a conflicting mode, otherwise acquires. -/
def RwLock.try_write {T : Type} (w : RwLockState T) :
    Option (RwLockWriteGuard T) × RwLockState T :=
  if w.locked then (none, w) else (some ⟨w.value⟩, ⟨w.value, true⟩)

/-- Model of dropping a `parking_lot::RwLockWriteGuard` (external drop glue):
writes the carried value back and releases the lock. -/
def RwLockWriteGuard.finish {T : Type} (g : RwLockWriteGuard T)
    (_w : RwLockState T) : RwLockState T :=
  ⟨g.value, false⟩

/-- Model of dropping a `parking_lot::MappedRwLockWriteGuard`: writes the
base value back and releases the lock. -/
def MappedRwLockWriteGuard.finish {T U : Type} (m : MappedRwLockWriteGuard T U)
    (_w : RwLockState T) : RwLockState T :=
  ⟨m.base, false⟩

/-- Model of `parking_lot::RwLockWriteGuard::map` applied to a projection
`f : T → U` (src/parking_lot.rs uses it at `FnOnce(&mut T) -> &mut U`). -/
def RwLockWriteGuard.map {T U : Type} (g : RwLockWriteGuard T) (f : T → U) :
    MappedRwLockWriteGuard T U :=
  ⟨g.value, f g.value⟩

/-- Model of `parking_lot::RwLockWriteGuard::try_map`: `Err(self)` (the
original guard, unchanged) when the projection declines. -/
def RwLockWriteGuard.try_map {T U : Type} (g : RwLockWriteGuard T)
    (f : T → Option U) :
    RustResult (MappedRwLockWriteGuard T U) (RwLockWriteGuard T) :=
  match f g.value with
  | some u => .ok ⟨g.value, u⟩
  | none => .err g

/-- `impl LockBlocking for &RwLock<T>` (src/parking_lot.rs:12-19):
`type Error = Infallible`, `Ok(self.write())`. -/
def plLockBlocking (T : Type) :
    LockBlocking RwLockRef (RwLockState T) Empty (RwLockWriteGuard T) :=
  ⟨fun _ w => (.ok (RwLock.write w).1, (RwLock.write w).2)⟩

/-- `impl LockImmediate for &RwLock<T>` (src/parking_lot.rs:21-28):
`type Error = ()`, `self.try_write().ok_or(())`. -/
def plLockImmediate (T : Type) :
    LockImmediate RwLockRef (RwLockState T) Unit (RwLockWriteGuard T) :=
  ⟨fun _ w =>
    match RwLock.try_write w with
    | (some g, w') => (.ok g, w')
    | (none, w') => (.err (), w')⟩

/-- `SafeRwLockGuard::map` (src/parking_lot.rs:36-41):
`self.map_guard(|guard| RwLockWriteGuard::map(guard, f))`. -/
def SafeRwLockGuard.map {T U : Type}
    (g : SafeGuard RwLockRef (RwLockWriteGuard T)) (f : T → U) :
    SafeGuard RwLockRef (MappedRwLockWriteGuard T U) :=
  g.map_guard (fun guard => guard.map f)

/-- `SafeRwLockGuard::try_map` (src/parking_lot.rs:48-53):
`self.try_map_guard(|guard| RwLockWriteGuard::try_map(guard, f))`. -/
def SafeRwLockGuard.try_map {T U : Type}
    (g : SafeGuard RwLockRef (RwLockWriteGuard T)) (f : T → Option U) :
    RustResult (SafeGuard RwLockRef (MappedRwLockWriteGuard T U))
      (SafeGuard RwLockRef (RwLockWriteGuard T)) :=
  g.try_map_guard (fun guard => guard.try_map f)

/-- `SafeGuard::unlock` at the parking_lot binding, together with the drop of
the discarded primitive write guard (src/lib.rs:156-158 plus external drop
glue): returns the original handle and releases the lock. -/
def plUnlock {T : Type} (g : SafeGuard RwLockRef (RwLockWriteGuard T))
    (w : RwLockState T) : SafeLock RwLockRef × RwLockState T :=
  (g.unlock, g.guard.finish w)

/-- Model of the external `std::sync::RwLock<T>` cell: the protected value,
whether the lock is held in a conflicting mode, and the poison flag. -/
structure StdRwLockState (T : Type) where
  value : T
  locked : Bool
  poisoned : Bool
deriving DecidableEq

/-- Model of the external `std::sync::RwLockWriteGuard<'a, T>`. -/
structure StdRwLockWriteGuard (T : Type) where
  value : T
deriving DecidableEq

/-- Model of `std::sync::PoisonError<G>`: carries the guard it still wraps.
(The held state of a guard travelling inside an error value is not tracked
by the single-cell model; no claim examines it.) -/
structure PoisonError (G : Type) where
  guard : G
deriving DecidableEq

/-- Model of `std::sync::TryLockError<G>`: `Poisoned` or `WouldBlock`. -/
inductive TryLockError (G : Type) where
  | poisoned (e : PoisonError G)
  | wouldBlock
deriving DecidableEq

/-- Model of `std::sync::RwLock::write`: blocks, then returns the guard, as
`Err(PoisonError(..))` when the lock is poisoned. -/
def StdRwLock.write {T : Type} (w : StdRwLockState T) :
    RustResult (StdRwLockWriteGuard T) (PoisonError (StdRwLockWriteGuard T))
      × StdRwLockState T :=
  if w.poisoned then (.err ⟨⟨w.value⟩⟩, w)
  else (.ok ⟨w.value⟩, { w with locked := true })

/-- Model of `std::sync::RwLock::try_write`: `WouldBlock` under contention,
`Poisoned` when the lock is poisoned, otherwise the guard. -/
def StdRwLock.try_write {T : Type} (w : StdRwLockState T) :
    RustResult (StdRwLockWriteGuard T) (TryLockError (StdRwLockWriteGuard T))
      × StdRwLockState T :=
  if w.locked then (.err .wouldBlock, w)
  else if w.poisoned then (.err (.poisoned ⟨⟨w.value⟩⟩), w)
  else (.ok ⟨w.value⟩, { w with locked := true })

/-- `impl LockBlocking for &RwLock<T>` (src/std.rs:8-15):
`type Error = PoisonError<RwLockWriteGuard<'a, T>>`, `self.write()`. -/
def stdLockBlocking (T : Type) :
    LockBlocking RwLockRef (StdRwLockState T)
      (PoisonError (StdRwLockWriteGuard T)) (StdRwLockWriteGuard T) :=
  ⟨fun _ w => StdRwLock.write w⟩

/-- `impl LockImmediate for &RwLock<T>` (src/std.rs:17-24):
`type Error = TryLockError<RwLockWriteGuard<'a, T>>`, `self.try_write()`. -/
def stdLockImmediate (T : Type) :
    LockImmediate RwLockRef (StdRwLockState T)
      (TryLockError (StdRwLockWriteGuard T)) (StdRwLockWriteGuard T) :=
  ⟨fun _ w => StdRwLock.try_write w⟩

/-- A protocol session over one parking_lot lock, for the temporal claim
about inspection guards: a held whole-value guard, a held projected guard,
or the state after `unlock` handed the handle back.  Each state carries the
lock cell so that writes to the protected value are observable. -/
inductive GuardSession (T : Type) : Type 1 where
  | whole (g : SafeGuard RwLockRef (RwLockWriteGuard T)) (cell : RwLockState T)
  | mapped {U : Type} (g : SafeGuard RwLockRef (MappedRwLockWriteGuard T U))
      (cell : RwLockState T)
  | released (handle : SafeLock RwLockRef) (cell : RwLockState T)

/-- The protected value as stored in the lock cell. -/
def GuardSession.cellValue {T : Type} : GuardSession T → T
  | .whole _ c => c.value
  | .mapped _ c => c.value
  | .released _ c => c.value

/-- Whether the cell is currently held. -/
def GuardSession.cellLocked {T : Type} : GuardSession T → Bool
  | .whole _ c => c.locked
  | .mapped _ c => c.locked
  | .released _ c => c.locked

/-- The value the session's guard will write back to the cell when it is
dropped (for a released session, the cell value itself). -/
def GuardSession.trackedValue {T : Type} : GuardSession T → T
  | .whole g _ => g.guard.value
  | .mapped g _ => g.guard.base
  | .released _ c => c.value

/-- One protocol-layer operation on a held guard, as the spec's temporal
property enumerates them: dereferencing, the `map_guard` family applied to a
caller-supplied function, the binding's `map`/`try_map`, and `unlock`
(which drops the primitive guard).  Each constructor's result is computed by
the embedded source operation. -/
inductive GuardStep (T : Type) : GuardSession T → GuardSession T → Prop where
  | deref_whole (g : SafeGuard RwLockRef (RwLockWriteGuard T))
      (cell : RwLockState T) :
      GuardStep T (.whole g cell) (.whole g cell)
  | deref_mapped {U : Type} (g : SafeGuard RwLockRef (MappedRwLockWriteGuard T U))
      (cell : RwLockState T) :
      GuardStep T (.mapped g cell) (.mapped g cell)
  | map_to_whole (f : RwLockWriteGuard T → RwLockWriteGuard T)
      (g : SafeGuard RwLockRef (RwLockWriteGuard T)) (cell : RwLockState T) :
      GuardStep T (.whole g cell) (.whole (g.map_guard f) cell)
  | map_to_mapped {U : Type} (f : RwLockWriteGuard T → MappedRwLockWriteGuard T U)
      (g : SafeGuard RwLockRef (RwLockWriteGuard T)) (cell : RwLockState T) :
      GuardStep T (.whole g cell) (.mapped (g.map_guard f) cell)
  | map_mapped {U V : Type}
      (f : MappedRwLockWriteGuard T U → MappedRwLockWriteGuard T V)
      (g : SafeGuard RwLockRef (MappedRwLockWriteGuard T U)) (cell : RwLockState T) :
      GuardStep T (.mapped g cell) (.mapped (g.map_guard f) cell)
  | pl_map {U : Type} (f : T → U)
      (g : SafeGuard RwLockRef (RwLockWriteGuard T)) (cell : RwLockState T) :
      GuardStep T (.whole g cell) (.mapped (SafeRwLockGuard.map g f) cell)
  | try_map_guard_ok {U : Type}
      (f : RwLockWriteGuard T → RustResult (MappedRwLockWriteGuard T U) (RwLockWriteGuard T))
      (g : SafeGuard RwLockRef (RwLockWriteGuard T))
      (g' : SafeGuard RwLockRef (MappedRwLockWriteGuard T U)) (cell : RwLockState T) :
      g.try_map_guard f = .ok g' →
      GuardStep T (.whole g cell) (.mapped g' cell)
  | try_map_guard_declined {U : Type}
      (f : RwLockWriteGuard T → RustResult (MappedRwLockWriteGuard T U) (RwLockWriteGuard T))
      (g g' : SafeGuard RwLockRef (RwLockWriteGuard T)) (cell : RwLockState T) :
      g.try_map_guard f = .err g' →
      GuardStep T (.whole g cell) (.whole g' cell)
  | try_map_guard_err_ok {U E : Type}
      (f : RwLockWriteGuard T → RustResult (MappedRwLockWriteGuard T U) (RwLockWriteGuard T × E))
      (g : SafeGuard RwLockRef (RwLockWriteGuard T))
      (g' : SafeGuard RwLockRef (MappedRwLockWriteGuard T U)) (cell : RwLockState T) :
      g.try_map_guard_err f = .ok g' →
      GuardStep T (.whole g cell) (.mapped g' cell)
  | try_map_guard_err_declined {U E : Type}
      (f : RwLockWriteGuard T → RustResult (MappedRwLockWriteGuard T U) (RwLockWriteGuard T × E))
      (g g' : SafeGuard RwLockRef (RwLockWriteGuard T)) (e : E) (cell : RwLockState T) :
      g.try_map_guard_err f = .err (g', e) →
      GuardStep T (.whole g cell) (.whole g' cell)
  | unlock_whole (g : SafeGuard RwLockRef (RwLockWriteGuard T)) (cell : RwLockState T) :
      GuardStep T (.whole g cell) (.released g.unlock (g.guard.finish cell))
  | unlock_mapped {U : Type} (g : SafeGuard RwLockRef (MappedRwLockWriteGuard T U))
      (cell : RwLockState T) :
      GuardStep T (.mapped g cell) (.released g.unlock (g.guard.finish cell))

/-- Any finite sequence of protocol-layer operations on a held guard. -/
def GuardSteps (T : Type) : GuardSession T → GuardSession T → Prop :=
  Relation.ReflTransGen (GuardStep T)

/-- A protocol-layer operation whose caller-supplied function is a genuine
projection: the value the resulting guard would write back is the value the
previous guard carried, i.e. the function does not write through the guard
it receives. -/
def ProjStep (T : Type) (s s' : GuardSession T) : Prop :=
  GuardStep T s s' ∧ s'.trackedValue = s.trackedValue

/-- Any finite sequence of projection-only operations. -/
def ProjSteps (T : Type) : GuardSession T → GuardSession T → Prop :=
  Relation.ReflTransGen (ProjStep T)

/-- A concrete handle used in the concrete sessions below. -/
def c1Handle : SafeLock RwLockRef :=
  ⟨⟨0⟩⟩

/-- The session obtained by `SafeLock::lock_blocking` through the
parking_lot binding on a free cell protecting the value `5`. -/
def c1Start : GuardSession Nat :=
  let p := c1Handle.lock_blocking (plLockBlocking Nat) ⟨5, false⟩
  .whole p.1 p.2

/-- C1 (amended).  No mutation before upgrade, for projection-only use: for
every sequence of protocol-layer operations on a guard (deref, the
`map_guard` family, the binding's `map`/`try_map`, unlock) in which each
caller-supplied mapping function is a genuine projection — it does not write
through the write guard it receives, i.e. it preserves the value the guard
would write back — the protected value in the lock cell is never written;
an inspection guard only reads, and mutation requires `upgrade`.  (As
literally stated the claim fails, see the counterexample: `map_guard` hands
the raw write guard to the caller's closure, which can write through it
before any `upgrade`.) -/
theorem projection_steps_never_write {T : Type} {s s' : GuardSession T}
    (h : ProjSteps T s s') (h0 : s.trackedValue = s.cellValue) :
    s'.cellValue = s.cellValue ∧ s'.trackedValue = s.cellValue := by
  induction h with
  | refl => exact ⟨rfl, h0⟩
  | tail _hsteps hstep ih =>
    obtain ⟨hc, ht⟩ := ih
    obtain ⟨hg, htr⟩ := hstep
    refine ⟨?_, htr.trans ht⟩
    cases hg with
    | unlock_whole g cell =>
      simpa [GuardSession.cellValue, GuardSession.trackedValue,
        RwLockWriteGuard.finish] using ht
    | unlock_mapped g cell =>
      simpa [GuardSession.cellValue, GuardSession.trackedValue,
        MappedRwLockWriteGuard.finish] using ht
    | deref_whole g cell => exact hc
    | deref_mapped g cell => exact hc
    | map_to_whole f g cell => exact hc
    | map_to_mapped f g cell => exact hc
    | map_mapped f g cell => exact hc
    | pl_map f g cell => exact hc
    | try_map_guard_ok f g g' cell hh => exact hc
    | try_map_guard_declined f g g' cell hh => exact hc
    | try_map_guard_err_ok f g g' cell hh => exact hc
    | try_map_guard_err_declined f g g' e cell hh => exact hc

/-- C1 witness: a projection-only run (an `unlock` of the freshly acquired
guard) keeps the protected value at `5`. -/
theorem projection_steps_never_write_witness :
    GuardSession.cellValue (GuardSession.released c1Handle (RwLockState.mk 5 false)) =
      c1Start.cellValue
    ∧ GuardSession.trackedValue (GuardSession.released c1Handle (RwLockState.mk 5 false)) =
      c1Start.cellValue :=
  projection_steps_never_write
    (Relation.ReflTransGen.single
      ⟨GuardStep.unlock_whole (SafeGuard.mk c1Handle (RwLockWriteGuard.mk 5))
        (RwLockState.mk 5 true), rfl⟩)
    rfl

/-- C1 counterexample.  The claim as stated (the protected value is never
written by any sequence of deref / `map_guard` / `try_map_guard` /
`try_map_guard_err` / unlock operations) is false: starting from a freshly
acquired guard over a cell protecting `5`, a `map_guard` whose
caller-supplied closure writes `10` through the write guard it receives,
followed by `unlock`, leaves the cell at `10` — a write with no `upgrade`
in the sequence. -/
theorem map_guard_closure_write_counterexample :
    GuardSteps Nat c1Start (.released c1Handle ⟨10, false⟩)
    ∧ GuardSession.cellValue
        (GuardSession.released c1Handle (RwLockState.mk 10 false)) ≠
      c1Start.cellValue := by
  constructor
  · exact Relation.ReflTransGen.head
      (GuardStep.map_to_whole (fun _ => RwLockWriteGuard.mk 10)
        (SafeGuard.mk c1Handle (RwLockWriteGuard.mk 5)) (RwLockState.mk 5 true))
      (Relation.ReflTransGen.single (GuardStep.unlock_whole
        (SafeGuard.mk c1Handle (RwLockWriteGuard.mk 10)) (RwLockState.mk 5 true)))
  · decide

/-- C2.  State conservation on acquire failure: for every lock type, handle
and primitive state, when the underlying acquire fails, `try_lock_blocking`
and `try_lock_immediate` return `Err` carrying the original `SafeLock`
unchanged, `try_lock_blocking_err` and `try_lock_immediate_err` return
`Err` of the original `SafeLock` paired with the failure value, and the
primitive state the protocol layer hands back is exactly the state the
underlying acquire produced — the protocol layer adds no state change. -/
theorem try_lock_failure_conserves_state {L σ E G : Type}
    (capB : LockBlocking L σ E G) (capI : LockImmediate L σ E G)
    (s : SafeLock L) (w w' : σ) (e : E) :
    (capB.lock_blocking s.inner w = (.err e, w') →
      s.try_lock_blocking capB w = (.err s, w')
      ∧ s.try_lock_blocking_err capB w = (.err (s, e), w'))
    ∧ (capI.lock_immediate s.inner w = (.err e, w') →
      s.try_lock_immediate capI w = (.err s, w')
      ∧ s.try_lock_immediate_err capI w = (.err (s, e), w')) := by
  constructor
  · intro h
    exact ⟨by simp [SafeLock.try_lock_blocking, h],
      by simp [SafeLock.try_lock_blocking_err, h]⟩
  · intro h
    exact ⟨by simp [SafeLock.try_lock_immediate, h],
      by simp [SafeLock.try_lock_immediate_err, h]⟩

/-- A blocking capability that always fails, to exercise the failure paths
at a concrete input. -/
def failingBlocking : LockBlocking Unit Unit Unit Unit :=
  ⟨fun _ w => (.err (), w)⟩

/-- An immediate capability that always fails, to exercise the failure paths
at a concrete input. -/
def failingImmediate : LockImmediate Unit Unit Unit Unit :=
  ⟨fun _ w => (.err (), w)⟩

/-- C2 witness: the failure paths at a concrete always-failing capability. -/
theorem try_lock_failure_conserves_state_witness :
    ((SafeLock.mk ()).try_lock_blocking failingBlocking () =
        (.err (SafeLock.mk ()), ())
      ∧ (SafeLock.mk ()).try_lock_blocking_err failingBlocking () =
        (.err (SafeLock.mk (), ()), ()))
    ∧ ((SafeLock.mk ()).try_lock_immediate failingImmediate () =
        (.err (SafeLock.mk ()), ())
      ∧ (SafeLock.mk ()).try_lock_immediate_err failingImmediate () =
        (.err (SafeLock.mk (), ()), ())) :=
  ⟨(try_lock_failure_conserves_state failingBlocking failingImmediate
      (SafeLock.mk ()) () () ()).1 rfl,
   (try_lock_failure_conserves_state failingBlocking failingImmediate
      (SafeLock.mk ()) () () ()).2 rfl⟩

/-- C3.  Round-trip lock/unlock at the parking_lot binding: for every handle
and every cell state, `handle.lock_blocking().unlock()` yields the original
`SafeLock` (wrapping the same underlying lock reference), and `unlock`
together with the drop of the acquired primitive write guard releases the
lock (the cell ends unlocked, with its value intact). -/
theorem lock_blocking_unlock_round_trip {T : Type} (r : RwLockRef)
    (w : RwLockState T) :
    ((SafeLock.mk r).lock_blocking (plLockBlocking T) w).1.unlock = SafeLock.mk r
    ∧ plUnlock ((SafeLock.mk r).lock_blocking (plLockBlocking T) w).1
        ((SafeLock.mk r).lock_blocking (plLockBlocking T) w).2
      = (SafeLock.mk r, ⟨w.value, false⟩) :=
  ⟨rfl, rfl⟩

/-- C4.  Upgrade is an infallible conversion: `upgrade` returns the stored
underlying guard of any `SafeGuard` (a total function, no failure path, no
lock operation), and composed with `lock_blocking` it returns exactly the
write guard the underlying acquire produced, leaving the primitive state
the acquire produced untouched. -/
theorem upgrade_is_underlying_guard {L σ G : Type}
    (cap : LockBlocking L σ Empty G) (s : SafeLock L) (w w' : σ) (g : G) :
    (∀ g0 : SafeGuard L G, g0.upgrade = g0.guard)
    ∧ (cap.lock_blocking s.inner w = (.ok g, w') →
        (s.lock_blocking cap w).1.upgrade = g
        ∧ (s.lock_blocking cap w).2 = w') := by
  refine ⟨fun g0 => rfl, fun h => ?_⟩
  exact ⟨by simp [SafeLock.lock_blocking, SafeGuard.upgrade, h, RustResult.unwrap],
    by simp [SafeLock.lock_blocking, h]⟩

/-- A blocking capability with uninhabited error type over trivial state, to
exercise the infallible acquire at a concrete input. -/
def trivialBlocking : LockBlocking Unit Unit Empty Unit :=
  ⟨fun _ w => (.ok (), w)⟩

/-- C4 witness: upgrading the guard acquired through a concrete infallible
capability returns the acquired underlying guard. -/
theorem upgrade_is_underlying_guard_witness :
    ((SafeLock.mk ()).lock_blocking trivialBlocking ()).1.upgrade = () :=
  ((upgrade_is_underlying_guard trivialBlocking (SafeLock.mk ()) () () ()).2 rfl).1

/-- C5.  Projection preserves the unlock target: for every guard and every
projection — generic `map_guard`, `try_map_guard`, `try_map_guard_err`
(either branch), or the parking_lot `map`/`try_map` — the lock field of the
resulting guard is the same `SafeLock` as before the projection, so a
subsequent `unlock` returns the original handle; only the guard field
changes (to the caller function's result). -/
theorem projection_preserves_unlock_target {L G H E T U : Type}
    (g : SafeGuard L G) (f : G → H) (ft : G → RustResult H G)
    (fe : G → RustResult H (G × E))
    (pg : SafeGuard RwLockRef (RwLockWriteGuard T)) (pf : T → U)
    (pt : T → Option U) :
    (g.map_guard f).lock = g.lock
    ∧ (g.map_guard f).guard = f g.guard
    ∧ (g.map_guard f).unlock = g.unlock
    ∧ (match g.try_map_guard ft with
       | .ok g' => g'.lock
       | .err g' => g'.lock) = g.lock
    ∧ (match g.try_map_guard_err fe with
       | .ok g' => g'.lock
       | .err p => p.1.lock) = g.lock
    ∧ (SafeRwLockGuard.map pg pf).lock = pg.lock
    ∧ (match SafeRwLockGuard.try_map pg pt with
       | .ok g' => g'.lock
       | .err g' => g'.lock) = pg.lock
    ∧ (SafeRwLockGuard.map pg pf).unlock = pg.unlock := by
  refine ⟨rfl, rfl, rfl, ?_, ?_, rfl, ?_, rfl⟩
  · simp only [SafeGuard.try_map_guard]
    cases ft g.guard <;> rfl
  · simp only [SafeGuard.try_map_guard_err]
    rcases fe g.guard with h | ⟨g0, e⟩ <;> rfl
  · simp only [SafeRwLockGuard.try_map, SafeGuard.try_map_guard]
    cases RwLockWriteGuard.try_map pg.guard pt <;> rfl

/-- C6.  Projection failure keeps the guard: when the caller-supplied
function hands the original unprojected value back in its error (as the
`try_map_guard` contract prescribes and as the parking_lot `try_map`
projection does), the caller receives `Err` of a guard equal to the
original one — same lock handle, same guard value — plus the error value in
the `_err` form; no lock operation is performed. -/
theorem try_map_failure_keeps_guard {L G H E T U : Type}
    (g : SafeGuard L G) (ft : G → RustResult H G)
    (fe : G → RustResult H (G × E)) (e : E)
    (pg : SafeGuard RwLockRef (RwLockWriteGuard T)) (pt : T → Option U) :
    (ft g.guard = .err g.guard → g.try_map_guard ft = .err g)
    ∧ (fe g.guard = .err (g.guard, e) → g.try_map_guard_err fe = .err (g, e))
    ∧ (pt pg.guard.value = none → SafeRwLockGuard.try_map pg pt = .err pg) := by
  refine ⟨fun h => ?_, fun h => ?_, fun h => ?_⟩
  · simp [SafeGuard.try_map_guard, h]
  · simp [SafeGuard.try_map_guard_err, h]
  · simp [SafeRwLockGuard.try_map, SafeGuard.try_map_guard,
      RwLockWriteGuard.try_map, h]

/-- C6 witness: a declined projection at concrete inputs returns the exact
original guard. -/
theorem try_map_failure_keeps_guard_witness :
    SafeGuard.try_map_guard (L := Unit) (H := Nat)
        ⟨⟨()⟩, 7⟩ (fun n => .err n) = .err ⟨⟨()⟩, 7⟩
    ∧ SafeGuard.try_map_guard_err (L := Unit) (H := Nat) (E := Bool)
        ⟨⟨()⟩, 7⟩ (fun n => .err (n, true)) = .err (⟨⟨()⟩, 7⟩, true)
    ∧ SafeRwLockGuard.try_map (U := Nat)
        ⟨⟨⟨1⟩⟩, ⟨7⟩⟩ (fun _ => none) = .err ⟨⟨⟨1⟩⟩, ⟨7⟩⟩ :=
  ⟨(try_map_failure_keeps_guard (H := Nat) (T := Nat) (U := Nat) ⟨⟨()⟩, 7⟩
      (fun n => .err n) (fun n => .err (n, true)) true ⟨⟨⟨1⟩⟩, ⟨7⟩⟩
      (fun _ => none)).1 rfl,
   (try_map_failure_keeps_guard (H := Nat) (T := Nat) (U := Nat) ⟨⟨()⟩, 7⟩
      (fun n => .err n) (fun n => .err (n, true)) true ⟨⟨⟨1⟩⟩, ⟨7⟩⟩
      (fun _ => none)).2.1 rfl,
   (try_map_failure_keeps_guard (H := Nat) (T := Nat) (U := Nat) ⟨⟨()⟩, 7⟩
      (fun n => .err n) (fun n => .err (n, true)) true ⟨⟨⟨1⟩⟩, ⟨7⟩⟩
      (fun _ => none)).2.2 rfl⟩

/-- C7.  No panics originate from the protocol layer: when the capability's
error type is uninhabited (`Infallible`, embedded as `Empty`), the
underlying acquire always returns `Ok`, so the `.unwrap()` inside
`lock_blocking` and `lock_immediate` cannot hit its panicking branch and
both operations return a guard built from the acquired underlying guard. -/
theorem infallible_acquire_never_fails {L σ G : Type}
    (capB : LockBlocking L σ Empty G) (capI : LockImmediate L σ Empty G)
    (s : SafeLock L) (w : σ) :
    (∃ g w', capB.lock_blocking s.inner w = (.ok g, w')
      ∧ s.lock_blocking capB w = (⟨s, g⟩, w'))
    ∧ (∃ g w', capI.lock_immediate s.inner w = (.ok g, w')
      ∧ s.lock_immediate capI w = (⟨s, g⟩, w')) := by
  constructor
  · rcases h : capB.lock_blocking s.inner w with ⟨r, w'⟩
    cases r with
    | ok g =>
      exact ⟨g, w', rfl, by simp [SafeLock.lock_blocking, h, RustResult.unwrap]⟩
    | err e => exact e.elim
  · rcases h : capI.lock_immediate s.inner w with ⟨r, w'⟩
    cases r with
    | ok g =>
      exact ⟨g, w', rfl, by simp [SafeLock.lock_immediate, h, RustResult.unwrap]⟩
    | err e => exact e.elim

/-- C8.  Family A (parking_lot) binding error contract: the blocking acquire
on `&RwLock<T>` cannot fail — its error type is `Infallible` (`Empty` here,
see the type of `plLockBlocking`) and it always returns `Ok` of the write
guard — while the non-blocking acquire fails with the unit error `()`
exactly when the primitive's `try_write` yields no guard, which happens
exactly when the lock is held (contended); otherwise it returns `Ok` of the
write guard `try_write` produced. -/
theorem parking_lot_error_contract {T : Type} (r : RwLockRef)
    (w : RwLockState T) :
    (plLockBlocking T).lock_blocking r w = (.ok ⟨w.value⟩, ⟨w.value, true⟩)
    ∧ (((plLockImmediate T).lock_immediate r w).1 = .err ()
        ↔ (RwLock.try_write w).1 = none)
    ∧ ((RwLock.try_write w).1 = none ↔ w.locked = true)
    ∧ (w.locked = false →
        (plLockImmediate T).lock_immediate r w = (.ok ⟨w.value⟩, ⟨w.value, true⟩)) := by
  obtain ⟨v, lk⟩ := w
  cases lk <;>
    simp [plLockBlocking, plLockImmediate, RwLock.write, RwLock.try_write]

/-- C8 witness: the contract evaluated on a held and on a free cell
protecting `3`. -/
theorem parking_lot_error_contract_witness :
    (plLockImmediate Nat).lock_immediate ⟨0⟩ ⟨3, false⟩ =
      (.ok ⟨3⟩, ⟨3, true⟩)
    ∧ (plLockBlocking Nat).lock_blocking ⟨0⟩ ⟨3, true⟩ =
      (.ok ⟨3⟩, ⟨3, true⟩) :=
  ⟨(parking_lot_error_contract ⟨0⟩ ⟨3, false⟩).2.2.2 rfl,
   (parking_lot_error_contract ⟨0⟩ (⟨3, true⟩ : RwLockState Nat)).1⟩

/-- C9.  Family B (std) binding collapses error detail in the non-`_err`
forms: on a poisoned (free) lock, `try_lock_blocking_err` surfaces the
`PoisonError` and `try_lock_immediate_err` surfaces
`TryLockError::Poisoned`; on a contended lock `try_lock_immediate_err`
surfaces `TryLockError::WouldBlock`; whereas `try_lock_blocking` and
`try_lock_immediate` discard the detail and return only `Err` of the
original handle — the non-`_err` results for poison and for contention are
identical. -/
theorem std_err_forms_surface_detail {T : Type} (r : RwLockRef) (v : T) :
    (SafeLock.mk r).try_lock_blocking_err (stdLockBlocking T) ⟨v, false, true⟩
      = (.err (SafeLock.mk r, ⟨⟨v⟩⟩), ⟨v, false, true⟩)
    ∧ (SafeLock.mk r).try_lock_blocking (stdLockBlocking T) ⟨v, false, true⟩
      = (.err (SafeLock.mk r), ⟨v, false, true⟩)
    ∧ (SafeLock.mk r).try_lock_immediate_err (stdLockImmediate T) ⟨v, false, true⟩
      = (.err (SafeLock.mk r, .poisoned ⟨⟨v⟩⟩), ⟨v, false, true⟩)
    ∧ (SafeLock.mk r).try_lock_immediate_err (stdLockImmediate T) ⟨v, true, false⟩
      = (.err (SafeLock.mk r, .wouldBlock), ⟨v, true, false⟩)
    ∧ (SafeLock.mk r).try_lock_immediate (stdLockImmediate T) ⟨v, false, true⟩
      = (.err (SafeLock.mk r), ⟨v, false, true⟩)
    ∧ (SafeLock.mk r).try_lock_immediate (stdLockImmediate T) ⟨v, true, false⟩
      = (.err (SafeLock.mk r), ⟨v, true, false⟩)
    ∧ ((SafeLock.mk r).try_lock_immediate (stdLockImmediate T) ⟨v, false, true⟩).1
      = ((SafeLock.mk r).try_lock_immediate (stdLockImmediate T) ⟨v, true, false⟩).1 :=
  ⟨rfl, rfl, rfl, rfl, rfl, rfl, rfl⟩

/-- C10.  `map_guard` satisfies the functor laws: mapping with the identity
returns a guard equal to the original (same lock, same guard value), and
mapping with `f` then `h` equals mapping with the composite `h ∘ f`. -/
theorem map_guard_functor_laws {L G H K : Type} (g : SafeGuard L G)
    (f : G → H) (h : H → K) :
    g.map_guard id = g ∧ (g.map_guard f).map_guard h = g.map_guard (h ∘ f) :=
  ⟨rfl, rfl⟩
